import Mathlib

/-!
Verification of the BigFin financial core against its implementation.

The definitions below are shallow embeddings of the TypeScript sources:
the double-entry ledger service (journal creation and validation, journal
reversal, the disbursement transaction template), the transfer status
ingestion, the repayment application waterfall, the payment routing fee
calculation, the reconciliation status normalization and auto-resolution,
and the Moov webhook signature gate.  Monetary amounts are integer cents,
modelled as `Int`; timestamps are modelled as `Nat` ticks.
-/

namespace BigFin

/-! ## Ledger data model (ledger/types.ts) -/

/-- Account categories from the chart of accounts; the source stores them as
the `type` column of `ledgerAccount`. -/
inductive AccountType
  | asset
  | liability
  | equity
  | revenue
  | expense
  deriving DecidableEq

/-- One input line of a journal (`LedgerEntry` in ledger/types.ts). -/
structure LedgerEntry where
  accountCode : String
  debitCents : Int
  creditCents : Int
  deriving DecidableEq

/-- A persisted entry: the input line plus the running balance the source
stores as `balanceAfterCents`. -/
structure PostedEntry where
  accountCode : String
  debitCents : Int
  creditCents : Int
  balanceAfterCents : Int
  deriving DecidableEq

/-- Journal types (`JournalType` in the Prisma schema). -/
inductive JournalType
  | disbursement
  | repayment
  | feeAssessment
  | interestAccrual
  | adjustment
  | reversal
  deriving DecidableEq

/-- The error taxonomy used by the embedded services (`AppError` factories
actually reached by the embedded code paths). -/
inductive AppErr
  | notFound (what : String)
  | invalidState (msg : String)
  | invalidRequest (msg : String)
  deriving DecidableEq

/-- A persisted journal (`ledgerJournal` row with its entries). -/
structure Journal where
  id : Nat
  contractId : Option String
  jtype : JournalType
  description : String
  isReversal : Bool
  reversesJournalId : Option Nat
  reversedByJournalId : Option Nat
  entries : List PostedEntry
  deriving DecidableEq

/-- The ledger store: the chart of accounts (code, account type) and the
journals in commit order.  `nextId` models the id generator. -/
structure Store where
  accounts : List (String × AccountType)
  journals : List Journal
  nextId : Nat
  deriving DecidableEq

/-- Input of `createJournal` (`CreateJournalInput` in ledger/types.ts). -/
structure CreateJournalInput where
  contractId : Option String
  jtype : JournalType
  description : String
  entries : List LedgerEntry
  deriving DecidableEq

/-- Account lookup (`tx.ledgerAccount.findUnique` by `code`). -/
def lookupAccount (accts : List (String × AccountType)) (code : String) :
    Option AccountType :=
  (accts.find? (fun p => p.1 = code)).map (fun p => p.2)

/-- Mirrors `account?.type === 'ASSET' || account?.type === 'EXPENSE'`: a
missing account falls into the credit-normal branch, exactly as the
optional chaining does. -/
def isDebitNormal (t : Option AccountType) : Bool :=
  match t with
  | some AccountType.asset => true
  | some AccountType.expense => true
  | _ => false

/-- The signed running-balance delta of one entry: debit-normal accounts
gain `debit - credit`, credit-normal accounts gain `credit - debit`
(service.ts, createJournal loop). -/
def signedDelta (accts : List (String × AccountType)) (e : LedgerEntry) : Int :=
  if isDebitNormal (lookupAccount accts e.accountCode) then
    e.debitCents - e.creditCents
  else
    e.creditCents - e.debitCents

/-- Mirrors `getAccountBalanceInternal`: the `balanceAfterCents` of the most
recent entry for the account, `0` when the account has no entries.  The
store list is in creation order, so the last matching element wins. -/
def lastBalance (store : List PostedEntry) (code : String) : Int :=
  store.foldl (fun acc pe => if pe.accountCode = code then pe.balanceAfterCents else acc) 0

/-- The persisted form of one entry: the input line together with the
running balance computed against the current store. -/
def mkPosted (accts : List (String × AccountType)) (store : List PostedEntry)
    (e : LedgerEntry) : PostedEntry :=
  { accountCode := e.accountCode
    debitCents := e.debitCents
    creditCents := e.creditCents
    balanceAfterCents := lastBalance store e.accountCode + signedDelta accts e }

/-- Posting loop of `createJournal`: each entry reads the current balance of
its account (including entries created earlier in the same journal) and
persists the updated running balance.  Returns the extended store and the
newly created entries. -/
def postEntries (accts : List (String × AccountType)) (store : List PostedEntry) :
    List LedgerEntry → List PostedEntry × List PostedEntry
  | [] => (store, [])
  | e :: rest =>
    ((postEntries accts (store ++ [mkPosted accts store e]) rest).1,
      mkPosted accts store e :: (postEntries accts (store ++ [mkPosted accts store e]) rest).2)

/-- Sum of `debitCents` (`entries.reduce((sum, e) => sum + e.debitCents, 0)`). -/
def totalDebits (es : List LedgerEntry) : Int :=
  (es.map (fun e => e.debitCents)).sum

/-- Sum of `creditCents`. -/
def totalCredits (es : List LedgerEntry) : Int :=
  (es.map (fun e => e.creditCents)).sum

/-- Per-entry checks of `validateBalance`, in source order: both sides
positive, both sides zero, a negative side. -/
def validateEntries : List LedgerEntry → Except AppErr Unit
  | [] => Except.ok ()
  | e :: rest =>
    if e.debitCents > 0 ∧ e.creditCents > 0 then
      Except.error (AppErr.invalidRequest ("Entry has both debit and credit"))
    else if e.debitCents = 0 ∧ e.creditCents = 0 then
      Except.error (AppErr.invalidRequest ("Entry has no debit or credit"))
    else if e.debitCents < 0 ∨ e.creditCents < 0 then
      Except.error (AppErr.invalidRequest ("Entry has negative amount"))
    else validateEntries rest

/-- `LedgerService.validateBalance`: the balance-sum check runs first, then
the per-entry checks. -/
def validateBalance (es : List LedgerEntry) : Except AppErr Unit :=
  if totalDebits es ≠ totalCredits es then
    Except.error (AppErr.invalidRequest ("Journal is not balanced"))
  else validateEntries es

/-- `LedgerService.validateAccountCodes`: every referenced code must exist in
the chart of accounts. -/
def validateAccountCodes (accts : List (String × AccountType)) (codes : List String) :
    Except AppErr Unit :=
  if codes.all (fun c => (lookupAccount accts c).isSome) then Except.ok ()
  else Except.error (AppErr.invalidRequest ("Unknown account codes"))

/-- All persisted entries of the store, in creation order. -/
def allEntries (s : Store) : List PostedEntry :=
  (s.journals.map (fun j => j.entries)).flatten

/-- The journal persisted by a successful `createJournal` call. -/
def createdJournal (s : Store) (input : CreateJournalInput) : Journal :=
  { id := s.nextId
    contractId := input.contractId
    jtype := input.jtype
    description := input.description
    isReversal := false
    reversesJournalId := none
    reversedByJournalId := none
    entries := (postEntries s.accounts (allEntries s) input.entries).2 }

/-- The successful branch of `createJournal`: append the journal and advance
the id generator. -/
def createOk (s : Store) (input : CreateJournalInput) : Store × Journal :=
  ({ s with journals := s.journals ++ [createdJournal s input], nextId := s.nextId + 1 },
    createdJournal s input)

/-- `LedgerService.createJournal`: validate balance, validate account codes,
then post the journal and its entries with running balances in one
transaction.  A validation failure leaves the store untouched (the
function returns only the error). -/
def createJournal (s : Store) (input : CreateJournalInput) :
    Except AppErr (Store × Journal) :=
  match validateBalance input.entries with
  | Except.error e => Except.error e
  | Except.ok _ =>
    match validateAccountCodes s.accounts (input.entries.map (fun e => e.accountCode)) with
    | Except.error e => Except.error e
    | Except.ok _ => Except.ok (createOk s input)

/-- Swap the debit and credit of an entry (reversal construction). -/
def swapEntry (e : LedgerEntry) : LedgerEntry :=
  { accountCode := e.accountCode, debitCents := e.creditCents, creditCents := e.debitCents }

/-- Forget the stored running balance of a persisted entry. -/
def toLedgerEntry (pe : PostedEntry) : LedgerEntry :=
  { accountCode := pe.accountCode, debitCents := pe.debitCents, creditCents := pe.creditCents }

/-- `prisma.ledgerJournal.findUnique` by id. -/
def findJournal (s : Store) (jid : Nat) : Option Journal :=
  s.journals.find? (fun j => j.id = jid)

/-- Mark the original journal as reversed (`reversedByJournalId` update). -/
def setReversed (journals : List Journal) (jid rid : Nat) : List Journal :=
  journals.map (fun j => if j.id = jid then { j with reversedByJournalId := some rid } else j)

/-- Reversal entries: the original journal entries with debit and credit
swapped (`original.entries.map` in the source). -/
def reversalEntriesOf (original : Journal) : List LedgerEntry :=
  original.entries.map (fun pe => swapEntry (toLedgerEntry pe))

/-- The successful branch of `reverseJournal`: post the swapped entries as a
`REVERSAL` journal and mark the original as reversed, in one transaction. -/
def reverseOk (s : Store) (jid : Nat) (reason : String) (original : Journal) :
    Store × Journal :=
  ({ s with
      journals :=
        setReversed
          (s.journals ++
            [{ id := s.nextId
               contractId := original.contractId
               jtype := JournalType.reversal
               description := ("Reversal of ") ++ toString jid ++ (": ") ++ reason
               isReversal := true
               reversesJournalId := some jid
               reversedByJournalId := none
               entries := (postEntries s.accounts (allEntries s) (reversalEntriesOf original)).2 }])
          jid s.nextId
      nextId := s.nextId + 1 },
    { id := s.nextId
      contractId := original.contractId
      jtype := JournalType.reversal
      description := ("Reversal of ") ++ toString jid ++ (": ") ++ reason
      isReversal := true
      reversesJournalId := some jid
      reversedByJournalId := none
      entries := (postEntries s.accounts (allEntries s) (reversalEntriesOf original)).2 })

/-- `LedgerService.reverseJournal`: the original must exist and must not
already carry `reversedByJournalId`; the reversal journal posts the
original entries with debit and credit swapped, then the original is
marked reversed, all in one transaction. -/
def reverseJournal (s : Store) (jid : Nat) (reason : String) :
    Except AppErr (Store × Journal) :=
  match findJournal s jid with
  | none => Except.error (AppErr.notFound ("Ledger journal"))
  | some original =>
    if original.reversedByJournalId.isSome then
      Except.error (AppErr.invalidState ("Journal has already been reversed"))
    else
      Except.ok (reverseOk s jid reason original)

/-! ## Validation facts (claim C1) -/

/-- The per-entry violations named by the specification: both sides
non-zero, both sides zero, or a negative side. -/
def entryViolates (e : LedgerEntry) : Prop :=
  (e.debitCents ≠ 0 ∧ e.creditCents ≠ 0) ∨
  (e.debitCents = 0 ∧ e.creditCents = 0) ∨
  e.debitCents < 0 ∨ e.creditCents < 0

theorem validateEntries_error_iff (es : List LedgerEntry) :
    (∃ m, validateEntries es = Except.error (AppErr.invalidRequest m)) ↔
      ∃ e ∈ es, entryViolates e := by
  induction es with
  | nil => simp [validateEntries]
  | cons e rest ih =>
    by_cases h1 : e.debitCents > 0 ∧ e.creditCents > 0
    · simp only [validateEntries, if_pos h1]
      constructor
      · intro _
        exact ⟨e, by simp, Or.inl ⟨by omega, by omega⟩⟩
      · intro _
        exact ⟨("Entry has both debit and credit"), rfl⟩
    · by_cases h2 : e.debitCents = 0 ∧ e.creditCents = 0
      · simp only [validateEntries, if_neg h1, if_pos h2]
        constructor
        · intro _
          exact ⟨e, by simp, Or.inr (Or.inl h2)⟩
        · intro _
          exact ⟨("Entry has no debit or credit"), rfl⟩
      · by_cases h3 : e.debitCents < 0 ∨ e.creditCents < 0
        · simp only [validateEntries, if_neg h1, if_neg h2, if_pos h3]
          constructor
          · intro _
            exact ⟨e, by simp, Or.inr (Or.inr h3)⟩
          · intro _
            exact ⟨("Entry has negative amount"), rfl⟩
        · simp only [validateEntries, if_neg h1, if_neg h2, if_neg h3]
          rw [ih]
          constructor
          · rintro ⟨x, hx, hv⟩
            exact ⟨x, by simp [hx], hv⟩
          · rintro ⟨x, hx, hv⟩
            rcases List.mem_cons.mp hx with rfl | hx
            · exact absurd hv (by unfold entryViolates; omega)
            · exact ⟨x, hx, hv⟩

theorem validateEntries_ok (es : List LedgerEntry)
    (h : ∀ e ∈ es, ¬ entryViolates e) : validateEntries es = Except.ok () := by
  induction es with
  | nil => rfl
  | cons e rest ih =>
    have he := h e (by simp)
    have h1 : ¬ (e.debitCents > 0 ∧ e.creditCents > 0) := by
      unfold entryViolates at he; omega
    have h2 : ¬ (e.debitCents = 0 ∧ e.creditCents = 0) := by
      unfold entryViolates at he; omega
    have h3 : ¬ (e.debitCents < 0 ∨ e.creditCents < 0) := by
      unfold entryViolates at he; omega
    simp only [validateEntries, if_neg h1, if_neg h2, if_neg h3]
    exact ih (fun x hx => h x (by simp [hx]))

/-- C1: `create_journal` validation.  An entry with both sides non-zero, or
both sides zero, or a negative side, or a debit total different from the
credit total, makes `validateBalance` fail with `INVALID_REQUEST` — and
exactly those inputs fail.  When validation fails, `createJournal`
returns the same `INVALID_REQUEST` error (so nothing is written: an
erroneous result carries no store), and when no violation is present the
balance validation passes. -/
theorem claim1_create_journal_validation (es : List LedgerEntry) :
    (((∃ e ∈ es, entryViolates e) ∨ totalDebits es ≠ totalCredits es) ↔
      ∃ m, validateBalance es = Except.error (AppErr.invalidRequest m)) ∧
    (∀ (s : Store) (input : CreateJournalInput), input.entries = es →
      ((∃ e ∈ es, entryViolates e) ∨ totalDebits es ≠ totalCredits es) →
      ∃ m, createJournal s input = Except.error (AppErr.invalidRequest m)) ∧
    (¬ ((∃ e ∈ es, entryViolates e) ∨ totalDebits es ≠ totalCredits es) →
      validateBalance es = Except.ok ()) := by
  have key : ((∃ e ∈ es, entryViolates e) ∨ totalDebits es ≠ totalCredits es) ↔
      ∃ m, validateBalance es = Except.error (AppErr.invalidRequest m) := by
    by_cases hsum : totalDebits es ≠ totalCredits es
    · simp only [validateBalance, if_pos hsum]
      constructor
      · intro _
        exact ⟨("Journal is not balanced"), rfl⟩
      · intro _
        exact Or.inr hsum
    · simp only [validateBalance, if_neg hsum]
      rw [validateEntries_error_iff]
      constructor
      · rintro (h | h)
        · exact h
        · exact absurd h hsum
      · intro h
        exact Or.inl h
  refine ⟨key, ?_, ?_⟩
  · intro s input hes hviol
    obtain ⟨m, hm⟩ := key.mp hviol
    refine ⟨m, ?_⟩
    unfold createJournal
    rw [hes, hm]
  · intro hok
    rw [not_or, not_not] at hok
    unfold validateBalance
    rw [if_neg (not_not_intro hok.2)]
    refine validateEntries_ok es ?_
    intro e he hv
    exact hok.1 ⟨e, he, hv⟩

/-- Witness for C1 at a concrete violating input: one entry with both sides
non-zero fails balance-validation with `INVALID_REQUEST`. -/
theorem claim1_create_journal_validation_witness :
    ∃ m, validateBalance [⟨("assets:cash:operating"), 5, 5⟩] =
      Except.error (AppErr.invalidRequest m) :=
  (claim1_create_journal_validation [⟨("assets:cash:operating"), 5, 5⟩]).1.mp
    (Or.inl ⟨⟨("assets:cash:operating"), 5, 5⟩, by simp, Or.inl (by decide)⟩)

/-! ## Running-balance algebra (towards claim C3) -/

/-- Net signed effect of a list of entries on one account. -/
def netDelta (accts : List (String × AccountType)) (es : List LedgerEntry)
    (code : String) : Int :=
  ((es.filter (fun e => e.accountCode = code)).map (signedDelta accts)).sum

theorem netDelta_nil (accts : List (String × AccountType)) (code : String) :
    netDelta accts [] code = 0 := by
  simp [netDelta]

theorem netDelta_cons (accts : List (String × AccountType)) (e : LedgerEntry)
    (rest : List LedgerEntry) (code : String) :
    netDelta accts (e :: rest) code =
      (if e.accountCode = code then signedDelta accts e else 0) + netDelta accts rest code := by
  by_cases h : e.accountCode = code <;>
    simp [netDelta, List.filter_cons, h]

theorem lastBalance_append_one (store : List PostedEntry) (pe : PostedEntry) (code : String) :
    lastBalance (store ++ [pe]) code =
      if pe.accountCode = code then pe.balanceAfterCents else lastBalance store code := by
  simp [lastBalance, List.foldl_append]

theorem postEntries_fst_eq (accts : List (String × AccountType))
    (es : List LedgerEntry) (store : List PostedEntry) :
    (postEntries accts store es).1 = store ++ (postEntries accts store es).2 := by
  induction es generalizing store with
  | nil => simp [postEntries]
  | cons e rest ih =>
    simp only [postEntries]
    rw [ih]
    simp

theorem lastBalance_postEntries (accts : List (String × AccountType))
    (es : List LedgerEntry) (store : List PostedEntry) (code : String) :
    lastBalance (postEntries accts store es).1 code =
      lastBalance store code + netDelta accts es code := by
  induction es generalizing store with
  | nil => simp [postEntries, netDelta_nil]
  | cons e rest ih =>
    simp only [postEntries]
    rw [ih, lastBalance_append_one, netDelta_cons]
    rw [show (mkPosted accts store e).accountCode = e.accountCode from rfl,
      show (mkPosted accts store e).balanceAfterCents =
        lastBalance store e.accountCode + signedDelta accts e from rfl]
    by_cases h : e.accountCode = code
    · rw [if_pos h, if_pos h, h]
      ring
    · rw [if_neg h, if_neg h]
      ring

theorem signedDelta_swap (accts : List (String × AccountType)) (e : LedgerEntry) :
    signedDelta accts (swapEntry e) = - signedDelta accts e := by
  simp only [signedDelta, swapEntry]
  split_ifs <;> ring

theorem netDelta_map_swap (accts : List (String × AccountType))
    (es : List LedgerEntry) (code : String) :
    netDelta accts (es.map swapEntry) code = - netDelta accts es code := by
  induction es with
  | nil => simp [netDelta_nil]
  | cons e rest ih =>
    rw [List.map_cons, netDelta_cons, netDelta_cons, ih, signedDelta_swap]
    by_cases h : e.accountCode = code
    · rw [if_pos (by simpa [swapEntry] using h), if_pos h]
      ring
    · rw [if_neg (by simpa [swapEntry] using h), if_neg h]
      ring

theorem postEntries_snd_toLedger (accts : List (String × AccountType))
    (es : List LedgerEntry) (store : List PostedEntry) :
    ((postEntries accts store es).2).map toLedgerEntry = es := by
  induction es generalizing store with
  | nil => simp [postEntries]
  | cons e rest ih =>
    obtain ⟨a, d, c⟩ := e
    simp only [postEntries, List.map_cons, ih]
    rfl

theorem find?_cons_pos {α : Type} (p : α → Bool) (a : α) (l : List α) (h : p a = true) :
    (a :: l).find? p = some a := by
  simp [List.find?, h]

theorem find?_cons_neg {α : Type} (p : α → Bool) (a : α) (l : List α) (h : p a = false) :
    (a :: l).find? p = l.find? p := by
  simp [List.find?, h]

theorem find?_journal_append_right (l1 l2 : List Journal) (jid : Nat)
    (h : ∀ j ∈ l1, j.id ≠ jid) :
    ((l1 ++ l2).find? fun j => j.id = jid) = l2.find? fun j => j.id = jid := by
  induction l1 with
  | nil => simp
  | cons a rest ih =>
    rw [List.cons_append, find?_cons_neg _ _ _ (by simpa using h a (by simp))]
    exact ih (fun x hx => h x (by simp [hx]))

theorem setReversed_map_entries (l : List Journal) (jid rid : Nat) :
    (setReversed l jid rid).map (fun j => j.entries) = l.map (fun j => j.entries) := by
  induction l with
  | nil => rfl
  | cons a rest ih =>
    simp only [setReversed, List.map_cons] at *
    rw [ih]
    by_cases h : a.id = jid
    · rw [if_pos h]
    · rw [if_neg h]

theorem find?_setReversed (l : List Journal) (jid rid : Nat) :
    ((setReversed l jid rid).find? fun j => j.id = jid) =
      (l.find? fun j => j.id = jid).map
        (fun j => { j with reversedByJournalId := some rid }) := by
  induction l with
  | nil => rfl
  | cons a rest ih =>
    simp only [setReversed, List.map_cons]
    by_cases h : a.id = jid
    · rw [if_pos h,
        find?_cons_pos _ _ _ (by simpa using h),
        find?_cons_pos _ _ _ (by simpa using h)]
      rfl
    · rw [if_neg h,
        find?_cons_neg _ _ _ (by simpa using h),
        find?_cons_neg _ _ _ (by simpa using h)]
      simpa [setReversed] using ih

/-- C3: reversing a freshly created (non-reversal, not yet reversed) journal
succeeds once, producing a `REVERSAL` journal whose entries swap every
original debit and credit; every account's running balance (the
`balance_after_cents` of its latest entry) returns to its value before the
journal was posted; and a second reversal of the same journal fails with
`INVALID_STATE` and creates nothing (the erroneous result carries no
store). -/
theorem claim3_reverse_journal_roundtrip
    (s0 : Store) (input : CreateJournalInput) (reason : String)
    (hwf : ∀ jj ∈ s0.journals, jj.id < s0.nextId)
    (s1 : Store) (j : Journal)
    (h1 : createJournal s0 input = Except.ok (s1, j))
    (hnotrev : j.isReversal = false) :
    ∃ s2 rj, reverseJournal s1 j.id reason = Except.ok (s2, rj) ∧
      rj.jtype = JournalType.reversal ∧
      rj.isReversal = true ∧
      rj.reversesJournalId = some j.id ∧
      rj.entries.map toLedgerEntry = (j.entries.map toLedgerEntry).map swapEntry ∧
      (∀ code, lastBalance (allEntries s2) code = lastBalance (allEntries s0) code) ∧
      (∀ reason2, reverseJournal s2 j.id reason2 =
        Except.error (AppErr.invalidState ("Journal has already been reversed"))) := by
  cases hvb : validateBalance input.entries with
  | error e =>
    rw [createJournal, hvb] at h1
    cases h1
  | ok u =>
    cases hacc : validateAccountCodes s0.accounts (input.entries.map (fun e => e.accountCode)) with
    | error e =>
      rw [createJournal, hvb, hacc] at h1
      cases h1
    | ok u2 =>
      rw [createJournal, hvb, hacc] at h1
      rw [Except.ok.injEq] at h1
      have hs1 : (createOk s0 input).1 = s1 := congrArg Prod.fst h1
      have hj : (createOk s0 input).2 = j := congrArg Prod.snd h1
      subst hs1
      subst hj
      have hne : ∀ jj ∈ s0.journals, jj.id ≠ s0.nextId :=
        fun jj hjj => Nat.ne_of_lt (hwf jj hjj)
      have hfind : findJournal (createOk s0 input).1 (createOk s0 input).2.id =
          some (createOk s0 input).2 := by
        show ((s0.journals ++ [createdJournal s0 input]).find?
          fun jj => jj.id = s0.nextId) = some (createdJournal s0 input)
        rw [find?_journal_append_right _ _ _ hne]
        exact find?_cons_pos _ _ _ (by simp [createdJournal])
      have hrev : reverseJournal (createOk s0 input).1 (createOk s0 input).2.id reason =
          Except.ok (reverseOk (createOk s0 input).1 (createOk s0 input).2.id reason
            (createOk s0 input).2) := by
        unfold reverseJournal
        rw [hfind]
        rfl
      refine ⟨(reverseOk (createOk s0 input).1 (createOk s0 input).2.id reason
          (createOk s0 input).2).1,
        (reverseOk (createOk s0 input).1 (createOk s0 input).2.id reason
          (createOk s0 input).2).2, hrev, rfl, rfl, rfl, ?_, ?_, ?_⟩
      · show ((postEntries (createOk s0 input).1.accounts (allEntries (createOk s0 input).1)
            (reversalEntriesOf (createOk s0 input).2)).2).map toLedgerEntry = _
        rw [postEntries_snd_toLedger, reversalEntriesOf, List.map_map]
        rfl
      · intro code
        have hre : reversalEntriesOf (createOk s0 input).2 = input.entries.map swapEntry := by
          rw [reversalEntriesOf]
          rw [show (createOk s0 input).2.entries =
            (postEntries s0.accounts (allEntries s0) input.entries).2 from rfl]
          conv_rhs =>
            rw [← postEntries_snd_toLedger s0.accounts input.entries (allEntries s0)]
          rw [List.map_map]
          rfl
        have hall1 : allEntries (createOk s0 input).1 =
            (postEntries s0.accounts (allEntries s0) input.entries).1 := by
          rw [postEntries_fst_eq]
          simp [allEntries, createOk, createdJournal]
        have hall2 : allEntries (reverseOk (createOk s0 input).1 (createOk s0 input).2.id reason
              (createOk s0 input).2).1 =
            (postEntries (createOk s0 input).1.accounts (allEntries (createOk s0 input).1)
              (reversalEntriesOf (createOk s0 input).2)).1 := by
          rw [postEntries_fst_eq]
          show ((setReversed ((createOk s0 input).1.journals ++ [_]) _ _).map
            (fun jj => jj.entries)).flatten = _
          rw [setReversed_map_entries]
          simp [allEntries]
        rw [hall2, show (createOk s0 input).1.accounts = s0.accounts from rfl,
          lastBalance_postEntries, hre, netDelta_map_swap, hall1, lastBalance_postEntries]
        ring
      · intro reason2
        have hfind2 : findJournal (reverseOk (createOk s0 input).1 (createOk s0 input).2.id
              reason (createOk s0 input).2).1 (createOk s0 input).2.id =
            some { (createOk s0 input).2 with
              reversedByJournalId := some (createOk s0 input).1.nextId } := by
          unfold findJournal
          rw [show (reverseOk (createOk s0 input).1 (createOk s0 input).2.id reason
              (createOk s0 input).2).1.journals =
            setReversed ((createOk s0 input).1.journals ++
              [(reverseOk (createOk s0 input).1 (createOk s0 input).2.id reason
                (createOk s0 input).2).2])
              ((createOk s0 input).2.id) ((createOk s0 input).1.nextId) from rfl]
          rw [find?_setReversed]
          rw [show (createOk s0 input).1.journals =
            s0.journals ++ [(createOk s0 input).2] from rfl]
          rw [List.append_assoc]
          rw [show ((createOk s0 input).2.id) = s0.nextId from rfl]
          rw [find?_journal_append_right _ _ _ hne]
          rw [List.singleton_append]
          rw [find?_cons_pos _ _ _ (by simp [createOk, createdJournal])]
          rfl
        unfold reverseJournal
        rw [hfind2]
        rfl

/-! ## Chart of accounts (`AccountCodes` in ledger/types.ts) -/

def CASH_OPERATING : String := "assets:cash:operating"

def CASH_PREFUND : String := "assets:cash:prefund"

def LOANS_PRINCIPAL : String := "assets:loans_receivable:principal"

def LOANS_INTEREST : String := "assets:loans_receivable:interest"

def LOANS_FEES : String := "assets:loans_receivable:fees"

def PREFUND_BALANCES : String := "liabilities:prefund_balances"

def INTEREST_INCOME : String := "revenue:interest_income"

def FEE_EXPRESS : String := "revenue:fees:express_disbursement"

def FEE_LATE : String := "revenue:fees:late_payment"

def FEE_NSF : String := "revenue:fees:nsf"

def BAD_DEBT : String := "expenses:bad_debt"

/-- The seeded chart of accounts used for concrete evaluations, with the
normal-balance side implied by each top-level category. -/
def chartOfAccounts : List (String × AccountType) :=
  [(CASH_OPERATING, AccountType.asset),
   (CASH_PREFUND, AccountType.asset),
   (LOANS_PRINCIPAL, AccountType.asset),
   (LOANS_INTEREST, AccountType.asset),
   (LOANS_FEES, AccountType.asset),
   (PREFUND_BALANCES, AccountType.liability),
   (INTEREST_INCOME, AccountType.revenue),
   (FEE_EXPRESS, AccountType.revenue),
   (FEE_LATE, AccountType.revenue),
   (FEE_NSF, AccountType.revenue),
   (BAD_DEBT, AccountType.expense)]

/-- An empty ledger store over the seeded chart, for concrete evaluations. -/
def demoStore : Store :=
  { accounts := chartOfAccounts, journals := [], nextId := 0 }

/-- The balanced journal of scenario S1: debit operating cash 10000, credit
interest income 10000. -/
def demoInput : CreateJournalInput :=
  { contractId := none
    jtype := JournalType.adjustment
    description := ("scenario S1")
    entries := [{ accountCode := CASH_OPERATING, debitCents := 10000, creditCents := 0 },
                { accountCode := INTEREST_INCOME, debitCents := 0, creditCents := 10000 }] }

/-- Witness for C3: posting the concrete balanced journal of scenario S1 on
the empty store and reversing it restores all balances, and the second
reversal fails with `INVALID_STATE`. -/
theorem claim3_reverse_journal_roundtrip_witness :
    ∃ s2 rj, reverseJournal (createOk demoStore demoInput).1
        (createOk demoStore demoInput).2.id ("undo") = Except.ok (s2, rj) ∧
      rj.jtype = JournalType.reversal ∧
      rj.isReversal = true ∧
      rj.reversesJournalId = some (createOk demoStore demoInput).2.id ∧
      rj.entries.map toLedgerEntry =
        ((createOk demoStore demoInput).2.entries.map toLedgerEntry).map swapEntry ∧
      (∀ code, lastBalance (allEntries s2) code = lastBalance (allEntries demoStore) code) ∧
      (∀ reason2, reverseJournal s2 (createOk demoStore demoInput).2.id reason2 =
        Except.error (AppErr.invalidState ("Journal has already been reversed"))) :=
  claim3_reverse_journal_roundtrip demoStore demoInput ("undo") (by simp [demoStore])
    (createOk demoStore demoInput).1 (createOk demoStore demoInput).2 rfl rfl

/-! ## Disbursement template (claim C2) -/

/-- Entry construction of `LedgerService.recordDisbursement`.  In the
`fromPrefund` branch the source puts the principal in `debitCents` of the
`PREFUND_BALANCES` entry (the line commented `// Decrease liability`),
although the function's own doc comment says `CR Prefund Balances`. -/
def buildDisbursementEntries (principalCents expressFeeCents : Int)
    (fromPrefund : Bool) : List LedgerEntry :=
  if fromPrefund then
    [{ accountCode := LOANS_PRINCIPAL, debitCents := principalCents, creditCents := 0 },
     { accountCode := PREFUND_BALANCES, debitCents := principalCents, creditCents := 0 }] ++
    (if expressFeeCents > 0 then
      [{ accountCode := CASH_OPERATING, debitCents := expressFeeCents, creditCents := 0 },
       { accountCode := FEE_EXPRESS, debitCents := 0, creditCents := expressFeeCents }]
     else [])
  else
    [{ accountCode := LOANS_PRINCIPAL, debitCents := principalCents, creditCents := 0 },
     { accountCode := CASH_OPERATING, debitCents := 0, creditCents := principalCents }] ++
    (if expressFeeCents > 0 then
      [{ accountCode := CASH_OPERATING, debitCents := expressFeeCents, creditCents := 0 },
       { accountCode := FEE_EXPRESS, debitCents := 0, creditCents := expressFeeCents }]
     else [])

/-- `LedgerService.recordDisbursement`: build the template entries and pass
them through `createJournal`. -/
def recordDisbursement (s : Store) (contractId : String)
    (principalCents expressFeeCents : Int) (fromPrefund : Bool) :
    Except AppErr (Store × Journal) :=
  createJournal s
    { contractId := some contractId
      jtype := JournalType.disbursement
      description := ("Disbursement")
      entries := buildDisbursementEntries principalCents expressFeeCents fromPrefund }

/-- C2 evidence: at principal 10000 from prefund with no express fee, the
source builds two debit entries (principal debited to `LOANS_PRINCIPAL`
and also debited — not credited — to `PREFUND_BALANCES`), so the journal
totals 20000 debits against 0 credits and `create_journal` rejects it
with `INVALID_REQUEST`; the template can never pass its own balance
validation for a positive principal. -/
theorem claim2_prefund_disbursement_always_rejected :
    buildDisbursementEntries 10000 0 true =
      [{ accountCode := LOANS_PRINCIPAL, debitCents := 10000, creditCents := 0 },
       { accountCode := PREFUND_BALANCES, debitCents := 10000, creditCents := 0 }] ∧
    totalDebits (buildDisbursementEntries 10000 0 true) = 20000 ∧
    totalCredits (buildDisbursementEntries 10000 0 true) = 0 ∧
    recordDisbursement demoStore ("contract-1") 10000 0 true =
      Except.error (AppErr.invalidRequest ("Journal is not balanced")) := by
  refine ⟨by decide, by decide, by decide, rfl⟩

/-! ## Transfer status ingestion (transfer-service.ts, claims C4 and C5) -/

/-- Provider transfer statuses (`TransferStatus` in payments/types.ts). -/
inductive TransferStatus
  | pending
  | processing
  | completed
  | failed
  | returned
  | canceled
  deriving DecidableEq

/-- Domain record statuses shared by disbursements and repayments. -/
inductive DomainStatus
  | initiated
  | scheduled
  | pending
  | completed
  | failed
  | returned
  | cancelled
  deriving DecidableEq

/-- Funds-availability states. -/
inductive AvailState
  | initiated
  | pending
  | received
  | held
  | available
  | failed
  deriving DecidableEq

/-- Loan contract statuses. -/
inductive ContractStatus
  | pendingDisbursement
  | active
  | paidOff
  | defaulted
  | cancelled
  deriving DecidableEq

/-- A provider status update (`TransferStatusUpdate`). -/
structure TransferStatusUpdate where
  status : TransferStatus
  failureReason : Option String
  deriving DecidableEq

/-- Disbursement record fields touched by status ingestion. -/
structure Disbursement where
  id : String
  contractId : String
  status : DomainStatus
  availabilityState : AvailState
  completedAt : Option Nat
  failedAt : Option Nat
  failureReason : Option String
  deriving DecidableEq

/-- Repayment record fields touched by status ingestion. -/
structure Repayment where
  id : String
  contractId : String
  status : DomainStatus
  availabilityState : AvailState
  completedAt : Option Nat
  failedAt : Option Nat
  returnedAt : Option Nat
  failureReason : Option String
  deriving DecidableEq

/-- Loan contract fields touched by status ingestion. -/
structure LoanContract where
  id : String
  status : ContractStatus
  disbursedAt : Option Nat
  deriving DecidableEq

/-- `statusMap` of `updateDisbursementStatus`. -/
def disbStatusMap : TransferStatus → DomainStatus
  | TransferStatus.pending => DomainStatus.pending
  | TransferStatus.processing => DomainStatus.pending
  | TransferStatus.completed => DomainStatus.completed
  | TransferStatus.failed => DomainStatus.failed
  | TransferStatus.returned => DomainStatus.failed
  | TransferStatus.canceled => DomainStatus.failed

/-- `availabilityMap` of `updateDisbursementStatus` (identical in
`updateRepaymentStatus`). -/
def disbAvailabilityMap : TransferStatus → AvailState
  | TransferStatus.pending => AvailState.pending
  | TransferStatus.processing => AvailState.pending
  | TransferStatus.completed => AvailState.available
  | TransferStatus.failed => AvailState.failed
  | TransferStatus.returned => AvailState.failed
  | TransferStatus.canceled => AvailState.failed

/-- `statusMap` of `updateRepaymentStatus`: `returned` and `canceled` keep
their own domain statuses. -/
def repayStatusMap : TransferStatus → DomainStatus
  | TransferStatus.pending => DomainStatus.pending
  | TransferStatus.processing => DomainStatus.pending
  | TransferStatus.completed => DomainStatus.completed
  | TransferStatus.failed => DomainStatus.failed
  | TransferStatus.returned => DomainStatus.returned
  | TransferStatus.canceled => DomainStatus.cancelled

/-- `TransferService.updateDisbursementStatus`: the record is updated with
the mapped status unconditionally (the current status is never read);
`completedAt` is set on `completed`, `failedAt` on `failed` or `returned`
(a Prisma `undefined` leaves the stored value unchanged); on `completed`
the owning contract is set to ACTIVE with `disbursedAt`, regardless of its
prior status and in a separate write.  The function makes no ledger call:
the returned list of `create_journal` inputs it issues is empty. -/
def updateDisbursementStatus (d : Disbursement) (c : LoanContract)
    (u : TransferStatusUpdate) (now : Nat) :
    Disbursement × LoanContract × List CreateJournalInput :=
  ({ d with
      status := disbStatusMap u.status
      availabilityState := disbAvailabilityMap u.status
      completedAt := if u.status = TransferStatus.completed then some now else d.completedAt
      failedAt :=
        if u.status = TransferStatus.failed ∨ u.status = TransferStatus.returned then some now
        else d.failedAt
      failureReason :=
        match u.failureReason with
        | some r => some r
        | none => d.failureReason },
   (if u.status = TransferStatus.completed then
      { c with status := ContractStatus.active, disbursedAt := some now }
    else c),
   [])

/-- `TransferService.updateRepaymentStatus`: same unconditional update with
the repayment status map; `failedAt` only on `failed`, `returnedAt` on
`returned`.  No contract update and no ledger call. -/
def updateRepaymentStatus (r : Repayment) (u : TransferStatusUpdate) (now : Nat) :
    Repayment :=
  { r with
      status := repayStatusMap u.status
      availabilityState := disbAvailabilityMap u.status
      completedAt := if u.status = TransferStatus.completed then some now else r.completedAt
      failedAt := if u.status = TransferStatus.failed then some now else r.failedAt
      returnedAt := if u.status = TransferStatus.returned then some now else r.returnedAt
      failureReason :=
        match u.failureReason with
        | some r => some r
        | none => r.failureReason }

/-- A concrete pending disbursement used for evaluations. -/
def demoDisbursement : Disbursement :=
  { id := ("disb-1"), contractId := ("contract-1"), status := DomainStatus.pending
    availabilityState := AvailState.pending, completedAt := none, failedAt := none
    failureReason := none }

/-- A concrete pending-disbursement contract used for evaluations. -/
def demoContract : LoanContract :=
  { id := ("contract-1"), status := ContractStatus.pendingDisbursement, disbursedAt := none }

/-- C4 counterexample: ingesting a `completed` provider update for the
concrete pending disbursement posts no ledger journal at all — in
particular no `DISBURSEMENT` journal — contradicting the claim that the
Disbursement template journal is posted in the same transaction. -/
theorem claim4_counterexample_no_journal :
    (updateDisbursementStatus demoDisbursement demoContract
      { status := TransferStatus.completed, failureReason := none } 7).2.2 = [] ∧
    ¬ ∃ inp ∈ (updateDisbursementStatus demoDisbursement demoContract
      { status := TransferStatus.completed, failureReason := none } 7).2.2,
        inp.jtype = JournalType.disbursement := by
  refine ⟨rfl, ?_⟩
  rintro ⟨inp, hmem, -⟩
  simp [updateDisbursementStatus] at hmem

/-- C4 amended: on a `completed` provider update the disbursement becomes
COMPLETED with availability AVAILABLE and `completed_at` set, and the
owning contract is set to ACTIVE with `disbursed_at` set — but the
contract update is unconditional on its prior status, the two updates are
separate writes rather than one transaction, and no ledger journal is
posted by this path. -/
theorem claim4_completed_ingestion_amended (d : Disbursement) (c : LoanContract)
    (fr : Option String) (now : Nat) :
    (updateDisbursementStatus d c { status := TransferStatus.completed, failureReason := fr }
        now).1.status = DomainStatus.completed ∧
    (updateDisbursementStatus d c { status := TransferStatus.completed, failureReason := fr }
        now).1.availabilityState = AvailState.available ∧
    (updateDisbursementStatus d c { status := TransferStatus.completed, failureReason := fr }
        now).1.completedAt = some now ∧
    (updateDisbursementStatus d c { status := TransferStatus.completed, failureReason := fr }
        now).2.1.status = ContractStatus.active ∧
    (updateDisbursementStatus d c { status := TransferStatus.completed, failureReason := fr }
        now).2.1.disbursedAt = some now ∧
    (updateDisbursementStatus d c { status := TransferStatus.completed, failureReason := fr }
        now).2.2 = [] := by
  refine ⟨rfl, rfl, rfl, rfl, rfl, rfl⟩

/-- A concrete completed disbursement used for the C5 counterexample. -/
def demoCompletedDisbursement : Disbursement :=
  { id := ("disb-2"), contractId := ("contract-2"), status := DomainStatus.completed
    availabilityState := AvailState.available, completedAt := some 5, failedAt := none
    failureReason := none }

/-- C5 counterexample: a later `pending` provider update moves the concrete
COMPLETED disbursement back to PENDING — the ingestion path does not
reject the out-of-order update. -/
theorem claim5_counterexample_uncomplete :
    demoCompletedDisbursement.status = DomainStatus.completed ∧
    (updateDisbursementStatus demoCompletedDisbursement demoContract
      { status := TransferStatus.pending, failureReason := none } 9).1.status =
        DomainStatus.pending ∧
    DomainStatus.pending ≠ DomainStatus.completed := by
  refine ⟨rfl, rfl, by decide⟩

/-- C5 amended: status updates are applied unconditionally — the ingestion
path never reads the current status, so a `pending` or `processing`
provider update sets any disbursement or repayment record (COMPLETED
included) to PENDING. -/
theorem claim5_status_overwrite_amended (d : Disbursement) (c : LoanContract)
    (r : Repayment) (fr : Option String) (now : Nat) :
    (updateDisbursementStatus d c { status := TransferStatus.pending, failureReason := fr }
        now).1.status = DomainStatus.pending ∧
    (updateDisbursementStatus d c { status := TransferStatus.processing, failureReason := fr }
        now).1.status = DomainStatus.pending ∧
    (updateRepaymentStatus r { status := TransferStatus.pending, failureReason := fr }
        now).status = DomainStatus.pending ∧
    (updateRepaymentStatus r { status := TransferStatus.processing, failureReason := fr }
        now).status = DomainStatus.pending := by
  refine ⟨rfl, rfl, rfl, rfl⟩

/-! ## Repayment application waterfall (repayment routes, claim C6) -/

/-- The waterfall of the repayment initiation route: fees, then interest,
then principal, each bucket guarded by `remaining > 0 && balance > 0`.
Whatever remains after the principal bucket is not applied anywhere. -/
def applyWaterfall (amount fees interest principal : Int) : Int × Int × Int :=
  let remaining0 := amount
  let appliedFees :=
    if remaining0 > 0 ∧ fees > 0 then min remaining0 fees else 0
  let remaining1 := remaining0 - appliedFees
  let appliedInterest :=
    if remaining1 > 0 ∧ interest > 0 then min remaining1 interest else 0
  let remaining2 := remaining1 - appliedInterest
  let appliedPrincipal :=
    if remaining2 > 0 ∧ principal > 0 then min remaining2 principal else 0
  (appliedFees, appliedInterest, appliedPrincipal)

/-- C6 counterexample: a 100-cent repayment against balances
fees = 0, interest = 0, principal = 50 applies (0, 0, 50); the 50-cent
residual is dropped, not applied as an additional principal decrement, so
the applied components sum to 50, not to the full amount 100. -/
theorem claim6_counterexample_residual_dropped :
    applyWaterfall 100 0 0 50 = (0, 0, 50) ∧
    (applyWaterfall 100 0 0 50).1 + (applyWaterfall 100 0 0 50).2.1 +
      (applyWaterfall 100 0 0 50).2.2 ≠ 100 := by
  refine ⟨by decide, by decide⟩

/-- C6 amended: for a positive amount and non-negative balances the three
applied components follow the min-formulas of the claim, but the residual
after principal is dropped: the components sum to
`min amount (fees + interest + principal)`, not always to the full
amount. -/
theorem claim6_waterfall_amended (amount fees interest principal : Int)
    (ha : 1 ≤ amount) (hf : 0 ≤ fees) (hi : 0 ≤ interest) (hp : 0 ≤ principal) :
    (applyWaterfall amount fees interest principal).1 = min amount fees ∧
    (applyWaterfall amount fees interest principal).2.1 =
      min (amount - min amount fees) interest ∧
    (applyWaterfall amount fees interest principal).2.2 =
      min (amount - min amount fees - min (amount - min amount fees) interest) principal ∧
    (applyWaterfall amount fees interest principal).1 +
      (applyWaterfall amount fees interest principal).2.1 +
      (applyWaterfall amount fees interest principal).2.2 =
      min amount (fees + interest + principal) := by
  refine ⟨?_, ?_, ?_, ?_⟩ <;>
    (simp only [applyWaterfall]
     split_ifs <;> omega)

/-- Witness for C6 amended at amount 10 against balances (3, 4, 5):
applied components (3, 4, 3), summing to 10 = min 10 12. -/
theorem claim6_waterfall_amended_witness :
    (applyWaterfall 10 3 4 5).1 = min 10 3 ∧
    (applyWaterfall 10 3 4 5).2.1 = min (10 - min 10 3) 4 ∧
    (applyWaterfall 10 3 4 5).2.2 = min (10 - min 10 3 - min (10 - min 10 3) 4) 5 ∧
    (applyWaterfall 10 3 4 5).1 + (applyWaterfall 10 3 4 5).2.1 +
      (applyWaterfall 10 3 4 5).2.2 = min 10 (3 + 4 + 5) :=
  claim6_waterfall_amended 10 3 4 5 (by decide) (by decide) (by decide) (by decide)

/-! ## Express fee banding (routing-service.ts, claim C7) -/

/-- One express fee band (`EXPRESS_FEE_BANDS` rows). -/
structure FeeBand where
  minCents : Int
  maxCents : Int
  feeCents : Int
  deriving DecidableEq

/-- The banded express fee table from `fees_policy.json`. -/
def EXPRESS_FEE_BANDS : List FeeBand :=
  [{ minCents := 10000, maxCents := 50000, feeCents := 299 },
   { minCents := 50001, maxCents := 200000, feeCents := 499 },
   { minCents := 200001, maxCents := 500000, feeCents := 799 },
   { minCents := 500001, maxCents := 1000000, feeCents := 999 },
   { minCents := 1000001, maxCents := 2500000, feeCents := 1499 },
   { minCents := 2500001, maxCents := 5000000, feeCents := 1999 }]

/-- Payment speeds. -/
inductive PaymentSpeed
  | standard
  | instant
  deriving DecidableEq

/-- The band scan of `calculateFee`: first band whose inclusive range
contains the amount. -/
def findBand : List FeeBand → Int → Option Int
  | [], _ => none
  | b :: rest, x =>
    if x ≥ b.minCents ∧ x ≤ b.maxCents then some b.feeCents else findBand rest x

/-- Fallback of `calculateFee` when no band matches: amounts below the first
band's minimum take the first band's fee, everything else the last
band's fee (with 1999 when the table were empty). -/
def fallbackFee (amountCents : Int) : Int :=
  match EXPRESS_FEE_BANDS[0]? with
  | some firstBand =>
    if amountCents < firstBand.minCents then firstBand.feeCents
    else
      match EXPRESS_FEE_BANDS[EXPRESS_FEE_BANDS.length - 1]? with
      | some lastBand => lastBand.feeCents
      | none => 1999
  | none => 1999

/-- `PaymentRoutingService.calculateFee`: standard speed is free; instant
speed scans the bands with inclusive boundaries and otherwise falls back
below the lowest minimum or above the highest maximum. -/
def calculateFee (speed : PaymentSpeed) (amountCents : Int) : Int :=
  match speed with
  | PaymentSpeed.standard => 0
  | PaymentSpeed.instant =>
    match findBand EXPRESS_FEE_BANDS amountCents with
    | some fee => fee
    | none => fallbackFee amountCents

theorem fallbackFee_eq (x : Int) :
    fallbackFee x = if x < 10000 then 299 else 1999 := rfl

theorem findBand_table (x : Int) :
    findBand EXPRESS_FEE_BANDS x =
      if x ≥ 10000 ∧ x ≤ 50000 then some 299
      else if x ≥ 50001 ∧ x ≤ 200000 then some 499
      else if x ≥ 200001 ∧ x ≤ 500000 then some 799
      else if x ≥ 500001 ∧ x ≤ 1000000 then some 999
      else if x ≥ 1000001 ∧ x ≤ 2500000 then some 1499
      else if x ≥ 2500001 ∧ x ≤ 5000000 then some 1999
      else none := by
  simp only [EXPRESS_FEE_BANDS, findBand]

theorem calculateFee_instant_closed_form (x : Int) :
    calculateFee PaymentSpeed.instant x =
      if x ≤ 50000 then 299
      else if x ≤ 200000 then 499
      else if x ≤ 500000 then 799
      else if x ≤ 1000000 then 999
      else if x ≤ 2500000 then 1499
      else 1999 := by
  simp only [calculateFee]
  rw [findBand_table]
  split_ifs <;> first
    | rfl
    | omega
    | (show fallbackFee x = _
       rw [fallbackFee_eq]
       split_ifs <;> omega)

/-- C7: the standard-speed fee is 0 for every amount; the instant-speed fee
follows the banded table with upper-inclusive boundaries, returning 299
for every amount up to 50000 (amounts below the lowest band's minimum
included) and 1999 above 2500000; and the instant fee is monotone
non-decreasing. -/
theorem claim7_fee_bands :
    (∀ x : Int, calculateFee PaymentSpeed.standard x = 0) ∧
    (∀ x : Int, x ≤ 50000 → calculateFee PaymentSpeed.instant x = 299) ∧
    (∀ x : Int, 50001 ≤ x → x ≤ 200000 → calculateFee PaymentSpeed.instant x = 499) ∧
    (∀ x : Int, 200001 ≤ x → x ≤ 500000 → calculateFee PaymentSpeed.instant x = 799) ∧
    (∀ x : Int, 500001 ≤ x → x ≤ 1000000 → calculateFee PaymentSpeed.instant x = 999) ∧
    (∀ x : Int, 1000001 ≤ x → x ≤ 2500000 → calculateFee PaymentSpeed.instant x = 1499) ∧
    (∀ x : Int, 2500001 ≤ x → calculateFee PaymentSpeed.instant x = 1999) ∧
    (∀ x y : Int, x ≤ y →
      calculateFee PaymentSpeed.instant x ≤ calculateFee PaymentSpeed.instant y) := by
  refine ⟨fun x => rfl, ?_, ?_, ?_, ?_, ?_, ?_, ?_⟩
  · intro x hx
    rw [calculateFee_instant_closed_form]
    split_ifs <;> omega
  · intro x h1 h2
    rw [calculateFee_instant_closed_form]
    split_ifs <;> omega
  · intro x h1 h2
    rw [calculateFee_instant_closed_form]
    split_ifs <;> omega
  · intro x h1 h2
    rw [calculateFee_instant_closed_form]
    split_ifs <;> omega
  · intro x h1 h2
    rw [calculateFee_instant_closed_form]
    split_ifs <;> omega
  · intro x h1
    rw [calculateFee_instant_closed_form]
    split_ifs <;> omega
  · intro x y hxy
    rw [calculateFee_instant_closed_form, calculateFee_instant_closed_form]
    split_ifs <;> omega

/-- Witness for C7 at concrete amounts: one probe per band, one below the
lowest minimum, one above the highest maximum, and one monotonicity
instance. -/
theorem claim7_fee_bands_witness :
    calculateFee PaymentSpeed.standard 777 = 0 ∧
    calculateFee PaymentSpeed.instant 5000 = 299 ∧
    calculateFee PaymentSpeed.instant 50000 = 299 ∧
    calculateFee PaymentSpeed.instant 50001 = 499 ∧
    calculateFee PaymentSpeed.instant 300000 = 799 ∧
    calculateFee PaymentSpeed.instant 700000 = 999 ∧
    calculateFee PaymentSpeed.instant 2000000 = 1499 ∧
    calculateFee PaymentSpeed.instant 6000000 = 1999 ∧
    calculateFee PaymentSpeed.instant 100 ≤ calculateFee PaymentSpeed.instant 3000000 :=
  ⟨claim7_fee_bands.1 777,
   claim7_fee_bands.2.1 5000 (by decide),
   claim7_fee_bands.2.1 50000 (by decide),
   claim7_fee_bands.2.2.1 50001 (by decide) (by decide),
   claim7_fee_bands.2.2.2.1 300000 (by decide) (by decide),
   claim7_fee_bands.2.2.2.2.1 700000 (by decide) (by decide),
   claim7_fee_bands.2.2.2.2.2.1 2000000 (by decide) (by decide),
   claim7_fee_bands.2.2.2.2.2.2.1 6000000 (by decide),
   claim7_fee_bands.2.2.2.2.2.2.2 100 3000000 (by decide)⟩

/-! ## Reconciliation status normalization (reconciliation service, claim C8) -/

/-- ASCII lowercase of one character, as `String.prototype.toLowerCase`
behaves on the ASCII status tokens. -/
def lowerChar (c : Char) : Char :=
  if 65 ≤ c.toNat ∧ c.toNat ≤ 90 then Char.ofNat (c.toNat + 32) else c

/-- ASCII lowercase of a string. -/
def lowerString (s : String) : String :=
  String.mk (s.data.map lowerChar)

/-- `ReconciliationService.normalizeStatus`: the explicit map covers the
local statuses and the provider statuses `created`, `pending`,
`completed`, `failed` and `reversed`; every other input — the provider
token `canceled` included — falls through to `status.toLowerCase()`. -/
def normalizeStatus (status : String) : String :=
  match status with
  | "PENDING" => "pending"
  | "PROCESSING" => "pending"
  | "COMPLETED" => "completed"
  | "FAILED" => "failed"
  | "RETURNED" => "returned"
  | "CANCELLED" => "cancelled"
  | "created" => "pending"
  | "pending" => "pending"
  | "completed" => "completed"
  | "failed" => "failed"
  | "reversed" => "returned"
  | _ => lowerString status

/-- C8 counterexample: the provider token `canceled` is missing from the
normalization map, so it lowercases to `canceled`, which differs from the
`cancelled` that local `CANCELLED` normalizes to — the two do not count
as a status match. -/
theorem claim8_counterexample_canceled :
    normalizeStatus ("canceled") = ("canceled") ∧
    normalizeStatus ("CANCELLED") = ("cancelled") ∧
    normalizeStatus ("canceled") ≠ normalizeStatus ("CANCELLED") := by
  refine ⟨by decide, by decide, by decide⟩

/-- C8 amended: the normalization table holds as specified for every row
except cancellation — `PENDING`, `PROCESSING`, `created` and `pending`
all normalize to `pending`, and so on — but `canceled` normalizes to
`canceled` through the lowercase default rather than to `cancelled`, so a
local `CANCELLED` record compared against a provider `canceled` transfer
counts as a status mismatch. -/
theorem claim8_normalization_amended :
    normalizeStatus ("PENDING") = ("pending") ∧
    normalizeStatus ("PROCESSING") = ("pending") ∧
    normalizeStatus ("created") = ("pending") ∧
    normalizeStatus ("pending") = ("pending") ∧
    normalizeStatus ("COMPLETED") = ("completed") ∧
    normalizeStatus ("completed") = ("completed") ∧
    normalizeStatus ("FAILED") = ("failed") ∧
    normalizeStatus ("failed") = ("failed") ∧
    normalizeStatus ("RETURNED") = ("returned") ∧
    normalizeStatus ("reversed") = ("returned") ∧
    normalizeStatus ("CANCELLED") = ("cancelled") ∧
    normalizeStatus ("canceled") = ("canceled") ∧
    normalizeStatus ("canceled") ≠ normalizeStatus ("CANCELLED") := by
  decide

/-! ## Reconciliation auto-resolution (reconciliation service, claim C9) -/

/-- Reconciliation exception types. -/
inductive ExcType
  | transferStatus
  | transferMissing
  | transferOrphaned
  | amountMismatch
  | ledgerImbalance
  | prefundMismatch
  deriving DecidableEq

/-- Exception lifecycle states (`open` is spelled `statusOpen`). -/
inductive ExcStatus
  | statusOpen
  | investigating
  | resolved
  | ignored
  deriving DecidableEq

/-- Exception resolution types. -/
inductive ResolutionType
  | autoCorrected
  | manualAdjustment
  | providerConfirmed
  | localConfirmed
  | writtenOff
  | duplicate
  | falsePositive
  deriving DecidableEq

/-- Local record kinds an exception can point at. -/
inductive LocalRecordType
  | disbursement
  | repayment
  | prefund
  | ledger
  deriving DecidableEq

/-- A reconciliation exception; `localStatus` and `providerStatus` model the
`status` fields of the JSON `localValue` and `providerValue` payloads. -/
structure RecException where
  etype : ExcType
  localRecordType : Option LocalRecordType
  localRecordId : Option String
  discrepancyAmountCents : Option Int
  localStatus : Option String
  providerStatus : Option String
  status : ExcStatus
  resolvedAt : Option Nat
  resolutionType : Option ResolutionType
  deriving DecidableEq

/-- `ReconciliationService.canAutoResolve`: only `transfer_status`
exceptions; a set, non-zero discrepancy above the threshold rejects (the
`exception.discrepancyAmountCents &&` guard is JavaScript truthiness, so
a missing or zero discrepancy skips the check); and the normalized local
status must be `pending` while the normalized provider status is
`completed`. -/
def canAutoResolve (thresholdCents : Int) (e : RecException) : Bool :=
  if e.etype = ExcType.transferStatus then
    if (match e.discrepancyAmountCents with
        | some d => decide (d ≠ 0) && decide (d > thresholdCents)
        | none => false) then
      false
    else
      decide (normalizeStatus ((e.localStatus).getD ("")) = ("pending")) &&
      decide (normalizeStatus ((e.providerStatus).getD ("")) = ("completed"))
  else false

/-- Local records auto-resolution can touch. -/
inductive LocalRecord
  | disb (d : Disbursement)
  | repay (r : Repayment)
  deriving DecidableEq

/-- `ReconciliationService.autoResolveException`: with a local record id and
type present, set the record to COMPLETED/AVAILABLE with
`completed_at = now` (for disbursement and repayment record types) and
mark the exception resolved as `auto_corrected`; without them, return
early and change nothing. -/
def autoResolveException (e : RecException) (rec : LocalRecord) (now : Nat) :
    RecException × LocalRecord :=
  if e.localRecordId.isNone ∨ e.localRecordType.isNone then (e, rec)
  else
    (⟨e.etype, e.localRecordType, e.localRecordId, e.discrepancyAmountCents,
      e.localStatus, e.providerStatus, ExcStatus.resolved, some now,
      some ResolutionType.autoCorrected⟩,
     match e.localRecordType, rec with
     | some LocalRecordType.disbursement, LocalRecord.disb d =>
       LocalRecord.disb { d with
         status := DomainStatus.completed
         availabilityState := AvailState.available
         completedAt := some now }
     | some LocalRecordType.repayment, LocalRecord.repay r =>
       LocalRecord.repay { r with
         status := DomainStatus.completed
         availabilityState := AvailState.available
         completedAt := some now }
     | _, other => other)

/-- The auto-resolution pass of `runReconciliation`: only when not a dry run
and auto-resolution is enabled, every exception passing `canAutoResolve`
is resolved (the default `autoResolveThresholdCents` is 100). -/
def autoResolvedExceptions (dryRun enabled : Bool) (thresholdCents : Int)
    (excs : List RecException) : List RecException :=
  if !dryRun && enabled then excs.filter (canAutoResolve thresholdCents) else []

/-- C9: during a non-dry-run reconciliation with the default configuration,
an exception is auto-resolved iff its type is `transfer_status`, its
discrepancy (when set) is at most the 100-cent threshold, and the
normalized local status is `pending` while the normalized provider status
is `completed`; auto-resolution then marks the exception resolved as
`auto_corrected` with `resolvedAt = now` and sets the targeted
disbursement or repayment record to COMPLETED/AVAILABLE with
`completed_at = now`. -/
theorem claim9_auto_resolution (excs : List RecException) (e : RecException) :
    (e ∈ autoResolvedExceptions false true 100 excs ↔
      (e ∈ excs ∧ e.etype = ExcType.transferStatus ∧
        (∀ d, e.discrepancyAmountCents = some d → d ≤ 100) ∧
        normalizeStatus ((e.localStatus).getD ("")) = ("pending") ∧
        normalizeStatus ((e.providerStatus).getD ("")) = ("completed"))) ∧
    (∀ (d : Disbursement) (now : Nat) (rid : String),
      e.localRecordId = some rid →
      e.localRecordType = some LocalRecordType.disbursement →
      autoResolveException e (LocalRecord.disb d) now =
        (⟨e.etype, e.localRecordType, e.localRecordId, e.discrepancyAmountCents,
          e.localStatus, e.providerStatus, ExcStatus.resolved, some now,
          some ResolutionType.autoCorrected⟩,
         LocalRecord.disb { d with
           status := DomainStatus.completed
           availabilityState := AvailState.available
           completedAt := some now })) ∧
    (∀ (r : Repayment) (now : Nat) (rid : String),
      e.localRecordId = some rid →
      e.localRecordType = some LocalRecordType.repayment →
      autoResolveException e (LocalRecord.repay r) now =
        (⟨e.etype, e.localRecordType, e.localRecordId, e.discrepancyAmountCents,
          e.localStatus, e.providerStatus, ExcStatus.resolved, some now,
          some ResolutionType.autoCorrected⟩,
         LocalRecord.repay { r with
           status := DomainStatus.completed
           availabilityState := AvailState.available
           completedAt := some now })) := by
  refine ⟨?_, ?_, ?_⟩
  · rw [show autoResolvedExceptions false true 100 excs =
      excs.filter (canAutoResolve 100) from rfl]
    rw [List.mem_filter]
    constructor
    · rintro ⟨hmem, hcan⟩
      rw [canAutoResolve] at hcan
      by_cases h1 : e.etype = ExcType.transferStatus
      · rw [if_pos h1] at hcan
        by_cases h2 : (match e.discrepancyAmountCents with
            | some d => decide (d ≠ 0) && decide (d > (100 : Int))
            | none => false) = true
        · rw [if_pos h2] at hcan
          cases hcan
        · rw [if_neg h2] at hcan
          rw [Bool.and_eq_true, decide_eq_true_iff, decide_eq_true_iff] at hcan
          refine ⟨hmem, h1, ?_, hcan.1, hcan.2⟩
          intro d hd
          rw [hd] at h2
          rcases lt_or_le 100 d with hgt | hle
          · exfalso
            apply h2
            show (decide (d ≠ 0) && decide (d > (100 : Int))) = true
            rw [Bool.and_eq_true, decide_eq_true_iff, decide_eq_true_iff]
            exact ⟨by omega, hgt⟩
          · exact hle
      · rw [if_neg h1] at hcan
        cases hcan
    · rintro ⟨hmem, hty, hdisc, hloc, hprov⟩
      refine ⟨hmem, ?_⟩
      rw [canAutoResolve]
      rw [if_pos hty]
      have hguard : (match e.discrepancyAmountCents with
          | some d => decide (d ≠ 0) && decide (d > (100 : Int))
          | none => false) = false := by
        cases hd : e.discrepancyAmountCents with
        | none => rfl
        | some d =>
          have hle := hdisc d hd
          show (decide (d ≠ 0) && decide (d > (100 : Int))) = false
          have h2 : decide (d > (100 : Int)) = false := by
            rw [decide_eq_false_iff_not]
            omega
          rw [h2, Bool.and_false]
      rw [hguard]
      simp [hloc, hprov]
  · intro d now rid hid hty
    rw [autoResolveException, if_neg (by simp [hid, hty]), hty]
    exact hty
  · intro r now rid hid hty
    rw [autoResolveException, if_neg (by simp [hid, hty]), hty]
    exact hty

/-- A concrete auto-resolvable exception: a pending disbursement the
provider reports completed, with no discrepancy amount set. -/
def demoException : RecException :=
  { etype := ExcType.transferStatus
    localRecordType := some LocalRecordType.disbursement
    localRecordId := some ("disb-1")
    discrepancyAmountCents := none
    localStatus := some ("PENDING")
    providerStatus := some ("completed")
    status := ExcStatus.statusOpen
    resolvedAt := none
    resolutionType := none }

/-- Witness for C9: the concrete exception is auto-resolved in a non-dry
run, and resolving it updates the concrete disbursement record and the
exception exactly as claimed. -/
theorem claim9_auto_resolution_witness :
    demoException ∈ autoResolvedExceptions false true 100 [demoException] ∧
    autoResolveException demoException (LocalRecord.disb demoDisbursement) 42 =
      (⟨demoException.etype, demoException.localRecordType, demoException.localRecordId,
        demoException.discrepancyAmountCents, demoException.localStatus,
        demoException.providerStatus, ExcStatus.resolved, some 42,
        some ResolutionType.autoCorrected⟩,
       LocalRecord.disb { demoDisbursement with
         status := DomainStatus.completed
         availabilityState := AvailState.available
         completedAt := some 42 }) :=
  ⟨(claim9_auto_resolution [demoException] demoException).1.mpr
      (by refine ⟨by simp, by decide, ?_, by decide, by decide⟩
          intro d hd
          simp [demoException] at hd),
   (claim9_auto_resolution [demoException] demoException).2.1 demoDisbursement 42
      ("disb-1") rfl rfl⟩

/-! ## Moov webhook signature gate (payments routes, claim C10) -/

/-- Outcome of the webhook endpoint: rejection by signature, rejection of an
unparsable payload, or parse-and-dispatch. -/
inductive WebhookOutcome
  | rejectedSignature
  | invalidPayload
  | processed
  deriving DecidableEq

/-- JavaScript truthiness of an optional header string: absent and empty
strings are falsy. -/
def jsTruthyStr : Option String → Bool
  | none => false
  | some s => !(s == (""))

/-- The `POST /webhooks/moov` handler: `if (signature && timestamp)` guards
signature verification, so verification runs only when both headers are
truthy; otherwise the event is parsed and dispatched directly.  The HMAC
comparison inside `verifySignature` is abstracted as the boolean
`verifyOk`, and payload parsing as `parseOk`; the returned flag records
whether `verifySignature` was invoked. -/
def handleMoovWebhook (sig ts : Option String) (verifyOk parseOk : Bool) :
    Bool × WebhookOutcome :=
  if jsTruthyStr sig && jsTruthyStr ts then
    if verifyOk then
      (true, if parseOk then WebhookOutcome.processed else WebhookOutcome.invalidPayload)
    else (true, WebhookOutcome.rejectedSignature)
  else (false, if parseOk then WebhookOutcome.processed else WebhookOutcome.invalidPayload)

/-- C10: a request missing the `moov-signature` or the `moov-timestamp`
header skips signature verification entirely and still has its event
parsed and dispatched; conversely, verification (and hence rejection of a
bad signature) runs only when both headers are present. -/
theorem claim10_webhook_signature_gate :
    (∀ (sig ts : Option String) (verifyOk parseOk : Bool),
      sig = none ∨ ts = none →
      (handleMoovWebhook sig ts verifyOk parseOk).1 = false ∧
      (parseOk = true →
        (handleMoovWebhook sig ts verifyOk parseOk).2 = WebhookOutcome.processed)) ∧
    (∀ (sig ts : Option String) (verifyOk parseOk : Bool),
      (handleMoovWebhook sig ts verifyOk parseOk).1 = true →
      sig.isSome ∧ ts.isSome) := by
  constructor
  · rintro sig ts verifyOk parseOk (rfl | rfl)
    · refine ⟨rfl, fun hp => ?_⟩
      subst hp
      rfl
    · refine ⟨?_, fun hp => ?_⟩
      · simp [handleMoovWebhook, jsTruthyStr]
      · subst hp
        simp [handleMoovWebhook, jsTruthyStr]
  · intro sig ts verifyOk parseOk hran
    cases sig with
    | none => simp [handleMoovWebhook, jsTruthyStr] at hran
    | some s =>
      cases ts with
      | none => simp [handleMoovWebhook, jsTruthyStr] at hran
      | some t => exact ⟨rfl, rfl⟩

/-- Witness for C10: with the signature header absent and a valid payload,
verification does not run and the event is processed; and a run
verification at concrete present headers implies both were present. -/
theorem claim10_webhook_signature_gate_witness :
    ((handleMoovWebhook none (some ("12345")) false true).1 = false ∧
      (true = true →
        (handleMoovWebhook none (some ("12345")) false true).2 = WebhookOutcome.processed)) ∧
    ((handleMoovWebhook (some ("sig")) (some ("12345")) true true).1 = true →
      (some ("sig")).isSome ∧ (some ("12345")).isSome) :=
  ⟨claim10_webhook_signature_gate.1 none (some ("12345")) false true (Or.inl rfl),
   claim10_webhook_signature_gate.2 (some ("sig")) (some ("12345")) true true⟩

end BigFin
